import Mathlib

/-!
Verification of the portfolio-assistant web application (src/app.py)
against its natural-language specification.

The application is shallowly embedded: table rows become structures,
the database becomes lists of rows, route handlers become pure functions
from the connection/session/request data to a response and an updated
database.  SQL semantics (WHERE filters, foreign keys declared in
init_db, ON DELETE CASCADE) are translated directly from the queries
and the DDL.  External black boxes (werkzeug password hashing, Python
str/int conversions, the csv module) are modelled by their contracts,
as noted at each definition.
-/

namespace PortfolioApp

/-- Row of the experience table (DDL in init_db, src/app.py lines 129-147).
Nullable SQL columns are Option. -/
structure ExperienceRow where
  id : Nat
  user_id : Nat
  category : Option String
  title : Option String
  description : Option String
  start_date : Option String
  end_date : Option String
  skills : Option String
  hours : Option Int
  link : Option String
  created_at : Option String
deriving Repr, DecidableEq

/-- Row of the users table.  The DDL (lines 103-110) declares id, email,
password_hash NOT NULL and created_at; the OAuth callbacks additionally
INSERT name, provider and provider_id columns (lines 1223, 1324-1334,
1427-1440), so those appear here as nullable fields.  password_hash is
Option because the naver callback INSERT supplies no value for it even
though the DDL declares it NOT NULL (part of what the C6 analysis records). -/
structure UserRow where
  id : Nat
  email : String
  password_hash : Option String
  created_at : Option String
  name : Option String
  provider : Option String
  provider_id : Option String
deriving Repr, DecidableEq

/-- Row of the profile table (DDL lines 113-126). -/
structure ProfileRow where
  user_id : Nat
  name : Option String
  major : Option String
  career_goal : Option String
  strengths : Option String
  ai_instructions : Option String
deriving Repr, DecidableEq

/-- The database state: the three tables created by init_db. -/
structure DB where
  users : List UserRow
  profile : List ProfileRow
  experience : List ExperienceRow
deriving Repr, DecidableEq

/-- The Flask session keys the application uses: logged_in, is_admin,
user_id (set in login/register/social handlers, read by the guards). -/
structure Session where
  logged_in : Bool
  is_admin : Bool
  user_id : Option Nat
deriving Repr, DecidableEq

/-! ### Python str/int on integers

The CSV export writes hours with str() (inside csv.writer) and the import
re-reads it with int() (line 988).  Both are modelled here: pyStrInt is
decimal printing with a minus sign, pyInt parses an optional sign followed
by decimal digits and returns none where int() raises ValueError.  (Forms
int() also accepts, such as surrounding whitespace or underscores, are not
produced by the export and are not modelled.) -/

def digitChar (d : Nat) : Char := Char.ofNat (48 + d)

def digitVal (c : Char) : Nat := c.toNat - 48

def natDigitsAux : Nat → Nat → List Char
  | 0, _ => []
  | fuel + 1, n =>
    if n < 10 then [digitChar n]
    else natDigitsAux fuel (n / 10) ++ [digitChar (n % 10)]

def natDigits (n : Nat) : List Char := natDigitsAux (n + 1) n

/-- Python str() of an int: decimal digits, '-' sign for negatives. -/
def pyStrInt (i : Int) : String :=
  match i with
  | Int.ofNat n => String.mk (natDigits n)
  | Int.negSucc m => String.mk ('-' :: natDigits (m + 1))

def parseDigits (cs : List Char) : Option Nat :=
  if cs.isEmpty then none
  else if cs.all Char.isDigit then
    some (cs.foldl (fun a c => 10 * a + digitVal c) 0)
  else none

/-- Python int() on a string: optional sign, then decimal digits;
none models a ValueError. -/
def pyInt (s : String) : Option Int :=
  match s.data with
  | [] => none
  | c :: cs =>
    if c = '-' then (parseDigits cs).map (fun n => -(n : Int))
    else if c = '+' then (parseDigits cs).map (fun n => (n : Int))
    else (parseDigits (c :: cs)).map (fun n => (n : Int))

/-! ### Database utilities (src/app.py section 2) -/

/-- ORDER BY start_date DESC NULLS LAST, as a Boolean "comes before"
relation between rows (line 169). -/
def startDateDescLe (a b : ExperienceRow) : Bool :=
  match a.start_date, b.start_date with
  | some x, some y => decide (y ≤ x)
  | some _, none => true
  | none, some _ => false
  | none, none => true

def insertSorted (a : ExperienceRow) : List ExperienceRow → List ExperienceRow
  | [] => [a]
  | b :: t => if startDateDescLe a b then a :: b :: t else b :: insertSorted a t

def sortByStartDateDesc (l : List ExperienceRow) : List ExperienceRow :=
  l.foldr insertSorted []

/-- fetch_all_experiences (lines 155-174): empty list when no connection,
optional WHERE user_id filter, optional ORDER BY start_date DESC. -/
def fetch_all_experiences (conn : Option DB) (order_by_recent : Bool)
    (user_id : Option Nat) : List ExperienceRow :=
  match conn with
  | none => []
  | some db =>
    let rows := match user_id with
      | none => db.experience
      | some uid => db.experience.filter (fun e => e.user_id == uid)
    if order_by_recent then sortByStartDateDesc rows else rows

/-- get_profile (lines 177-191): the empty record (none) for a falsy
user_id (None, and also the integer 0) or a missing connection, else the
profile row of the user. -/
def get_profile (conn : Option DB) (user_id : Option Nat) : Option ProfileRow :=
  match user_id with
  | none => none
  | some 0 => none
  | some uid =>
    match conn with
    | none => none
    | some db => db.profile.find? (fun p => p.user_id == uid)

/-! ### build_portfolio_text (lines 194-205) -/

/-- A Python f-string renders None as the string "None". -/
def optStr (v : Option String) : String := v.getD "None"

/-- The condition `e['end_date'] and e['end_date'] < today` of line 198:
truthy (non-NULL, non-empty) end_date lexicographically below today. -/
def endDateDone (today : String) (e : ExperienceRow) : Bool :=
  match e.end_date with
  | none => false
  | some d => decide (d ≠ "" ∧ d < today)

/-- Line 199: f-string rating, `미설정` for falsy (NULL or zero) hours. -/
def ratingText (e : ExperienceRow) : String :=
  match e.hours with
  | none => "미설정"
  | some h => if h = 0 then "미설정" else pyStrInt h ++ "점"

/-- Lines 200-203: the one formatted line produced for a row. -/
def expLine (today : String) (e : ExperienceRow) : String :=
  "- [" ++ (if endDateDone today e then "완료" else "진행 중") ++ "] " ++
  optStr e.title ++ " (" ++ optStr e.category ++ ") | 기술: " ++ optStr e.skills ++
  " | 중요도: " ++ ratingText e ++ " | 내용: " ++ optStr e.description

/-- build_portfolio_text (lines 194-205), with the current date passed as
a parameter (the code reads datetime.now() once per call). -/
def build_portfolio_text (today : String) (exps : List ExperienceRow) : String :=
  match exps.map (expLine today) with
  | [] => "활동 없음"
  | ls => String.intercalate "\n" ls

/-! ### Guards (lines 221-238) -/

/-- Response of a login_required-wrapped view: either the redirect to the
login page or the wrapped handler's output. -/
inductive Guarded (α : Type) where
  | redirectLogin
  | body (a : α)
deriving DecidableEq

/-- login_required (lines 221-228): runs the handler only when the
session's logged_in flag is set, else redirects to login. -/
def login_required {α : Type} (f : Session → α) (s : Session) : Guarded α :=
  if s.logged_in then Guarded.body (f s) else Guarded.redirectLogin

/-! ### Authentication (lines 395-473) -/

/-- werkzeug generate_password_hash: an external black box, modelled by
its contract as an injective encoding of the password. -/
def generate_password_hash (p : String) : String := "pbkdf2:" ++ p

/-- werkzeug check_password_hash: true exactly when the hash is the hash
of the submitted password. -/
def check_password_hash (hsh p : String) : Bool := hsh == generate_password_hash p

/-- Fresh SERIAL id for the users table, modelled as max existing id + 1. -/
def maxUserId (db : DB) : Nat := db.users.foldl (fun a u => max a u.id) 0

/-- Fresh SERIAL id for the experience table. -/
def maxExpId (db : DB) : Nat := db.experience.foldl (fun a e => max a e.id) 0

/-- INSERT INTO profile (user_id) VALUES (%s): all other columns NULL. -/
def defaultProfile (uid : Nat) : ProfileRow :=
  { user_id := uid, name := none, major := none, career_goal := none,
    strengths := none, ai_instructions := none }

inductive RegisterResponse where
  | dbError
  | duplicateEmail
  | redirectIndex
deriving Repr, DecidableEq

/-- register POST (lines 395-437): duplicate-email check, INSERT the user
with the werkzeug hash, INSERT the default profile, log the session in. -/
def register (conn : Option DB) (s : Session) (email password now : String) :
    RegisterResponse × Option DB × Session :=
  match conn with
  | none => (RegisterResponse.dbError, none, s)
  | some db =>
    if db.users.any (fun u => u.email == email) then
      (RegisterResponse.duplicateEmail, some db, s)
    else
      let nid := maxUserId db + 1
      let u : UserRow :=
        { id := nid, email := email,
          password_hash := some (generate_password_hash password),
          created_at := some now, name := none, provider := none, provider_id := none }
      (RegisterResponse.redirectIndex,
       some { db with users := db.users ++ [u], profile := db.profile ++ [defaultProfile nid] },
       { logged_in := true, is_admin := false, user_id := some nid })

inductive LoginResponse where
  | dbError
  | errorPage
  | redirectIndex
deriving Repr, DecidableEq

/-- login POST (lines 441-466): look the user up by email; on a matching
werkzeug hash set logged_in / is_admin=False / user_id and redirect to
index, otherwise re-render the login page with an error and leave the
session alone.  (A NULL stored hash — not producible by the app's own
registration paths — cannot verify.) -/
def login (conn : Option DB) (s : Session) (email password : String) :
    LoginResponse × Session :=
  match conn with
  | none => (LoginResponse.dbError, s)
  | some db =>
    match db.users.find? (fun u => u.email == email) with
    | none => (LoginResponse.errorPage, s)
    | some u =>
      match u.password_hash with
      | none => (LoginResponse.errorPage, s)
      | some hs =>
        if check_password_hash hs password then
          (LoginResponse.redirectIndex,
           { logged_in := true, is_admin := false, user_id := some u.id })
        else (LoginResponse.errorPage, s)

/-! ### Experience CRUD (lines 534-673) -/

/-- The `or None` idiom applied to a form value (lines 565-566, 637):
an empty string becomes NULL. -/
def orNone (v : Option String) : Option String :=
  match v with
  | none => none
  | some s => if s = "" then none else some s

/-- The fields of the add/edit form. -/
structure ExpForm where
  category : Option String
  title : Option String
  description : Option String
  start_date : Option String
  end_date : Option String
  skills : Option String
  hours : Option String
  link : Option String
deriving Repr, DecidableEq

/-- request.form.get("hours", 3) at line 568: the integer 3 when the field
is absent, else the submitted text, cast by PostgreSQL to INTEGER (a
non-numeric string makes the INSERT raise). -/
def addHours (v : Option String) : Option Int :=
  match v with
  | none => some 3
  | some s => pyInt s

/-- request.form.get("hours") at line 638: NULL when absent, else the
PostgreSQL INTEGER cast of the submitted text (outer none = cast error). -/
def editHours (v : Option String) : Option (Option Int) :=
  match v with
  | none => some none
  | some s => (pyInt s).map some

inductive AddResponse where
  | dbError
  | insertError
  | redirectIndex
deriving Repr, DecidableEq

/-- add POST (lines 549-576) for a resolved target user id: one INSERT
into experience; the foreign key declared in init_db makes PostgreSQL
reject a target user id that matches no users row. -/
def add_post (conn : Option DB) (target_uid : Nat) (f : ExpForm) (now : String) :
    AddResponse × Option DB :=
  match conn with
  | none => (AddResponse.dbError, none)
  | some db =>
    match addHours f.hours with
    | none => (AddResponse.insertError, some db)
    | some h =>
      if db.users.any (fun u => u.id == target_uid) then
        let r : ExperienceRow :=
          { id := maxExpId db + 1, user_id := target_uid,
            category := f.category, title := f.title, description := f.description,
            start_date := orNone f.start_date, end_date := orNone f.end_date,
            skills := f.skills, hours := some h, link := f.link, created_at := some now }
        (AddResponse.redirectIndex, some { db with experience := db.experience ++ [r] })
      else (AddResponse.insertError, some db)

inductive DetailResponse where
  | dbError
  | notFound
  | page (e : ExperienceRow)
deriving Repr, DecidableEq

/-- experience_detail (lines 580-601), the handler behind login_required:
admins query by id alone, other sessions by id AND user_id (a session
user_id of None compares SQL-NULL, matching nothing); no row found means
abort(404). -/
def experience_detail (conn : Option DB) (s : Session) (exp_id : Nat) : DetailResponse :=
  match conn with
  | none => DetailResponse.dbError
  | some db =>
    let q :=
      if s.is_admin then db.experience.find? (fun e => e.id == exp_id)
      else db.experience.find? (fun e => e.id == exp_id && s.user_id == some e.user_id)
    match q with
    | none => DetailResponse.notFound
    | some e => DetailResponse.page e

inductive EditResponse where
  | dbError
  | notFound
  | updateError
  | redirectDetail
deriving Repr, DecidableEq

/-- edit POST (lines 604-651): owner-scoped (or admin) SELECT, abort(404)
when absent, else an UPDATE of the listed columns of that id — user_id is
not among the SET columns. -/
def edit_post (conn : Option DB) (s : Session) (exp_id : Nat) (f : ExpForm) :
    EditResponse × Option DB :=
  match conn with
  | none => (EditResponse.dbError, none)
  | some db =>
    let q :=
      if s.is_admin then db.experience.find? (fun e => e.id == exp_id)
      else db.experience.find? (fun e => e.id == exp_id && s.user_id == some e.user_id)
    match q with
    | none => (EditResponse.notFound, some db)
    | some _ =>
      match editHours f.hours with
      | none => (EditResponse.updateError, some db)
      | some h =>
        let upd : ExperienceRow → ExperienceRow := fun e =>
          if e.id == exp_id then
            { e with
              category := f.category
              title := f.title
              description := f.description
              start_date := f.start_date
              end_date := orNone f.end_date
              hours := h
              skills := f.skills
              link := f.link }
          else e
        (EditResponse.redirectDetail, some { db with experience := db.experience.map upd })

inductive DeleteResponse where
  | dbError
  | redirectIndex
deriving Repr, DecidableEq

/-- delete (lines 654-673): admins DELETE by id, other sessions DELETE by
id AND user_id, then redirect to index in every case. -/
def delete (conn : Option DB) (s : Session) (exp_id : Nat) :
    DeleteResponse × Option DB :=
  match conn with
  | none => (DeleteResponse.dbError, none)
  | some db =>
    let keep : ExperienceRow → Bool :=
      if s.is_admin then fun e => !(e.id == exp_id)
      else fun e => !(e.id == exp_id && s.user_id == some e.user_id)
    (DeleteResponse.redirectIndex, some { db with experience := db.experience.filter keep })

/-! ### CSV backup (lines 916-1000)

The file is modelled as its list of rows of cells.  The byte-level work
done by the csv and io modules — UTF-8-with-BOM encoding and decoding,
quoting of cells — is an inverse pair on lists of cell rows and is
modelled as the identity. -/

def exportHeader : List String :=
  ["category", "title", "description", "start_date", "end_date", "skills", "hours", "link"]

/-- csv.writer renders a None field as the empty string. -/
def csvCell (v : Option String) : String := v.getD ""

/-- csv.writer renders an integer field with str(), a None as empty. -/
def csvCellInt (v : Option Int) : String :=
  match v with
  | none => ""
  | some i => pyStrInt i

/-- The cells written for one row (lines 929-938). -/
def exportRow (r : ExperienceRow) : List String :=
  [csvCell r.category, csvCell r.title, csvCell r.description, csvCell r.start_date,
   csvCell r.end_date, csvCell r.skills, csvCellInt r.hours, csvCell r.link]

/-- export_data (lines 916-945): header row then one row per record. -/
def export_data (rows : List ExperienceRow) : List (List String) :=
  exportHeader :: rows.map exportRow

/-- csv.DictReader field access: row.get(k) pairs the header with the
cells and looks the key up. -/
def dictGet (header cells : List String) (k : String) : Option String :=
  (header.zip cells).lookup k

/-- int(row.get('hours', 0) or 0) at line 988: absent or empty cell gives
0, otherwise int() on the cell (none models the ValueError). -/
def parseHoursCell (v : Option String) : Option Int :=
  match v with
  | none => some 0
  | some s => if s = "" then some 0 else pyInt s

/-- The experience row INSERTed for one CSV data row (lines 973-992);
none models the row whose processing raises. -/
def buildRow (uid : Nat) (header cells : List String) (now : String) (rid : Nat) :
    Option ExperienceRow :=
  match parseHoursCell (dictGet header cells "hours") with
  | none => none
  | some h =>
    some { id := rid, user_id := uid,
           category := dictGet header cells "category",
           title := dictGet header cells "title",
           description := dictGet header cells "description",
           start_date := dictGet header cells "start_date",
           end_date := orNone (dictGet header cells "end_date"),
           skills := dictGet header cells "skills",
           hours := some h,
           link := some ((dictGet header cells "link").getD ""),
           created_at := some now }

/-- All rows of the file body in order; none as soon as one row raises. -/
def buildRows (uid : Nat) (header : List String) (body : List (List String))
    (now : String) (rid : Nat) : Option (List ExperienceRow) :=
  match body with
  | [] => some []
  | cells :: rest =>
    match buildRow uid header cells now rid with
    | none => none
    | some r => (buildRows uid header rest now (rid + 1)).map (fun l => r :: l)

inductive ImportResponse where
  | dbError
  | importError (msg : String)
  | success (cnt : Nat)
deriving Repr, DecidableEq

/-- import_data (lines 948-1000), after the file-present checks, for a
resolved target user id: DictReader over header :: body, one INSERT per
row inside a try, a single commit after the loop.  Any exception in the
loop (a malformed hours value, or PostgreSQL rejecting the user_id
foreign key) reaches the except branch as a 500 before the commit, so
the uncommitted INSERTs are discarded and the table is unchanged. -/
def import_data (conn : Option DB) (uid : Nat) (file : List (List String))
    (now : String) : ImportResponse × Option DB :=
  match conn with
  | none => (ImportResponse.dbError, none)
  | some db =>
    match file with
    | [] => (ImportResponse.success 0, some db)
    | header :: body =>
      match buildRows uid header body now (maxExpId db + 1) with
      | none => (ImportResponse.importError "invalid literal for int", some db)
      | some rows =>
        if rows.isEmpty || db.users.any (fun u => u.id == uid) then
          (ImportResponse.success rows.length,
           some { db with experience := db.experience ++ rows })
        else (ImportResponse.importError "foreign key violation", some db)

/-! ### Social login (lines 1098-1456) -/

/-- social_login_process (lines 1098-1145): log in by email, creating the
user plus a default profile when absent. -/
def social_login_process (conn : Option DB) (s : Session) (email now : String) :
    Option DB × Session :=
  match conn with
  | none => (none, s)
  | some db =>
    match db.users.find? (fun u => u.email == email) with
    | some u => (some db, { logged_in := true, is_admin := false, user_id := some u.id })
    | none =>
      let nid := maxUserId db + 1
      let u : UserRow :=
        { id := nid, email := email, password_hash := some "",
          created_at := some now, name := none, provider := none, provider_id := none }
      (some { db with users := db.users ++ [u], profile := db.profile ++ [defaultProfile nid] },
       { logged_in := true, is_admin := false, user_id := some nid })

/-- google_callback database part (lines 1310-1352): look up by provider
and provider_id, else INSERT the user and a default profile. -/
def google_callback_db (conn : Option DB) (s : Session) (google_id email now : String) :
    Option DB × Session :=
  match conn with
  | none => (none, s)
  | some db =>
    match db.users.find? (fun u =>
        u.provider == some "google" && u.provider_id == some google_id) with
    | some u => (some db, { logged_in := true, is_admin := false, user_id := some u.id })
    | none =>
      let nid := maxUserId db + 1
      let u : UserRow :=
        { id := nid, email := email, password_hash := some "",
          created_at := some now, name := none,
          provider := some "google", provider_id := some google_id }
      (some { db with users := db.users ++ [u], profile := db.profile ++ [defaultProfile nid] },
       { logged_in := true, is_admin := false, user_id := some nid })

/-- kakao_callback database part (lines 1415-1453): same shape as google. -/
def kakao_callback_db (conn : Option DB) (s : Session) (kakao_id email now : String) :
    Option DB × Session :=
  match conn with
  | none => (none, s)
  | some db =>
    match db.users.find? (fun u =>
        u.provider == some "kakao" && u.provider_id == some kakao_id) with
    | some u => (some db, { logged_in := true, is_admin := false, user_id := some u.id })
    | none =>
      let nid := maxUserId db + 1
      let u : UserRow :=
        { id := nid, email := email, password_hash := some "",
          created_at := some now, name := none,
          provider := some "kakao", provider_id := some kakao_id }
      (some { db with users := db.users ++ [u], profile := db.profile ++ [defaultProfile nid] },
       { logged_in := true, is_admin := false, user_id := some nid })

/-- naver_callback database statements (lines 1209-1239) as written:
SELECT by provider and provider_id, then for a new user an
INSERT INTO users (email, name, provider, provider_id) — no password_hash
(the DDL declares it NOT NULL), no created_at, and no INSERT into profile.
The handler also reads a connection variable it never defines, so at
runtime it raises before reaching these statements; the definition models
the statements themselves, which is what the C6 analysis needs. -/
def naver_callback_db (db : DB) (provider_id email name : String) : DB :=
  match db.users.find? (fun u =>
      u.provider == some "naver" && u.provider_id == some provider_id) with
  | some _ => db
  | none =>
    let nid := maxUserId db + 1
    { db with users := db.users ++
        [{ id := nid, email := email, password_hash := none, created_at := none,
           name := some name, provider := some "naver", provider_id := some provider_id }] }

/-! ### Schema-level semantics -/

/-- Modelled from the spec: the DDL in init_db (lines 113-147) declares
profile.user_id and experience.user_id REFERENCES users(id) ON DELETE
CASCADE; no route of app.py issues DELETE FROM users, so this is the
database engine's own semantics of deleting a users row, taken from the
DDL under src/. -/
def delete_user_cascade (db : DB) (uid : Nat) : DB :=
  { users := db.users.filter (fun u => !(u.id == uid)),
    profile := db.profile.filter (fun p => !(p.user_id == uid)),
    experience := db.experience.filter (fun e => !(e.user_id == uid)) }

/-- Referential integrity of the experience table: every row's user_id is
the id of an existing users row. -/
def Inv (db : DB) : Prop :=
  ∀ e ∈ db.experience, ∃ u ∈ db.users, u.id = e.user_id

instance (db : DB) : Decidable (Inv db) := by
  unfold Inv
  infer_instance

/-- One database transition through the program's mutating operations
(each constructor applies the corresponding handler definition above). -/
inductive Step : DB → DB → Prop where
  | register_step (db : DB) (s : Session) (email pw now : String) :
      Step db ((register (some db) s email pw now).2.1.getD db)
  | social_step (db : DB) (s : Session) (email now : String) :
      Step db ((social_login_process (some db) s email now).1.getD db)
  | google_step (db : DB) (s : Session) (gid email now : String) :
      Step db ((google_callback_db (some db) s gid email now).1.getD db)
  | kakao_step (db : DB) (s : Session) (kid email now : String) :
      Step db ((kakao_callback_db (some db) s kid email now).1.getD db)
  | naver_step (db : DB) (pid email name : String) :
      Step db (naver_callback_db db pid email name)
  | add_step (db : DB) (uid : Nat) (f : ExpForm) (now : String) :
      Step db ((add_post (some db) uid f now).2.getD db)
  | edit_step (db : DB) (s : Session) (exp_id : Nat) (f : ExpForm) :
      Step db ((edit_post (some db) s exp_id f).2.getD db)
  | delete_step (db : DB) (s : Session) (exp_id : Nat) :
      Step db ((delete (some db) s exp_id).2.getD db)
  | import_step (db : DB) (uid : Nat) (file : List (List String)) (now : String) :
      Step db ((import_data (some db) uid file now).2.getD db)
  | cascade_step (db : DB) (uid : Nat) :
      Step db (delete_user_cascade db uid)

/-- Database states reachable through the operations. -/
def Reach : DB → DB → Prop := Relation.ReflTransGen Step

/-- The eight exported/imported columns of a row, in export order. -/
def exportedFields (r : ExperienceRow) : List (Option String) × Option Int :=
  ([r.category, r.title, r.description, r.start_date, r.end_date, r.skills, r.link],
   r.hours)

/-- A record all of whose exported text fields are non-NULL, whose hours
is non-NULL and whose end_date is not the empty string. -/
def GoodRow (r : ExperienceRow) : Bool :=
  r.category.isSome && r.title.isSome && r.description.isSome &&
  r.start_date.isSome && r.skills.isSome && r.hours.isSome && r.link.isSome &&
  !(r.end_date == some "")

/-! ### Concrete fixtures used by witness and counterexample theorems -/

def user1 : UserRow :=
  { id := 1, email := "alice@example.com",
    password_hash := some (generate_password_hash "pw1"),
    created_at := some "2026-01-01 00:00:00",
    name := none, provider := none, provider_id := none }

def user2 : UserRow :=
  { id := 2, email := "bob@example.com",
    password_hash := some (generate_password_hash "pw2"),
    created_at := some "2026-01-02 00:00:00",
    name := none, provider := none, provider_id := none }

def exp1 : ExperienceRow :=
  { id := 1, user_id := 1, category := some "인턴", title := some "프로젝트",
    description := some "설명", start_date := some "2025-01-01",
    end_date := some "2025-06-30", skills := some "Python", hours := some 5,
    link := some "", created_at := some "2026-01-01 00:00:00" }

def exp2 : ExperienceRow :=
  { id := 2, user_id := 2, category := some "동아리", title := some "활동",
    description := some "내용", start_date := some "2025-03-01",
    end_date := none, skills := some "C", hours := some 3,
    link := some "", created_at := some "2026-01-02 00:00:00" }

def dbTwoUsers : DB :=
  { users := [user1, user2],
    profile := [defaultProfile 1, defaultProfile 2],
    experience := [exp1, exp2] }

def dbOneUser : DB := { users := [user1], profile := [defaultProfile 1], experience := [] }

def sessionU1 : Session := { logged_in := true, is_admin := false, user_id := some 1 }

def sessionOut : Session := { logged_in := false, is_admin := false, user_id := none }

/-- A record with a NULL start_date, as the add handler stores when the
form field is empty (line 565). -/
def rowNullStart : ExperienceRow :=
  { id := 7, user_id := 1, category := some "동아리", title := some "활동",
    description := some "내용", start_date := none, end_date := none,
    skills := some "C", hours := some 3, link := some "",
    created_at := some "2026-01-01 00:00:00" }

/-- What the CSV pipeline actually stores for rowNullStart: the NULL
start_date comes back as the empty string. -/
def reimportedNullStart : ExperienceRow :=
  { id := 3, user_id := 1, category := some "동아리", title := some "활동",
    description := some "내용", start_date := some "", end_date := none,
    skills := some "C", hours := some 3, link := some "",
    created_at := some "t" }

theorem digitVal_digitChar (d : Nat) (h : d < 10) : digitVal (digitChar d) = d := by
  interval_cases d <;> decide

theorem isDigit_digitChar (d : Nat) (h : d < 10) : (digitChar d).isDigit = true := by
  interval_cases d <;> decide

theorem natDigitsAux_spec (fuel : Nat) : ∀ n, n < fuel →
    natDigitsAux fuel n ≠ [] ∧
    (natDigitsAux fuel n).all Char.isDigit = true ∧
    (natDigitsAux fuel n).foldl (fun a c => 10 * a + digitVal c) 0 = n := by
  induction fuel with
  | zero => exact fun n h => absurd h (Nat.not_lt_zero n)
  | succ f ih =>
    intro n h
    by_cases h10 : n < 10
    · refine ⟨?_, ?_, ?_⟩
      · simp [natDigitsAux, if_pos h10]
      · simp [natDigitsAux, if_pos h10, isDigit_digitChar n h10]
      · simp [natDigitsAux, if_pos h10, digitVal_digitChar n h10]
    · have hdlt : n / 10 < f := by
        have h1 : n / 10 < n := Nat.div_lt_self (by omega) (by omega)
        omega
      obtain ⟨ih1, ih2, ih3⟩ := ih (n / 10) hdlt
      refine ⟨?_, ?_, ?_⟩
      · simp [natDigitsAux, if_neg h10]
      · simp only [natDigitsAux, if_neg h10, List.all_append, ih2, Bool.true_and,
          List.all_cons, List.all_nil, Bool.and_true]
        exact isDigit_digitChar _ (Nat.mod_lt _ (by omega))
      · simp only [natDigitsAux, if_neg h10, List.foldl_append, ih3, List.foldl_cons,
          List.foldl_nil]
        rw [digitVal_digitChar _ (Nat.mod_lt _ (by omega))]
        omega

theorem natDigits_ne_nil (n : Nat) : natDigits n ≠ [] :=
  (natDigitsAux_spec (n + 1) n (Nat.lt_succ_self n)).1

theorem natDigits_all_digits (n : Nat) : (natDigits n).all Char.isDigit = true :=
  (natDigitsAux_spec (n + 1) n (Nat.lt_succ_self n)).2.1

theorem foldlDigits_natDigits (n : Nat) :
    (natDigits n).foldl (fun a c => 10 * a + digitVal c) 0 = n :=
  (natDigitsAux_spec (n + 1) n (Nat.lt_succ_self n)).2.2

theorem parseDigits_natDigits (n : Nat) : parseDigits (natDigits n) = some n := by
  unfold parseDigits
  rw [List.isEmpty_eq_false_iff_exists_mem.mpr ?nonempty]
  · simp only [Bool.false_eq_true, if_false, natDigits_all_digits, if_true,
      foldlDigits_natDigits]
  case nonempty =>
    cases hnd : natDigits n with
    | nil => exact absurd hnd (natDigits_ne_nil n)
    | cons c cs => exact ⟨c, by simp⟩

theorem not_dash_of_isDigit {c : Char} (h : c.isDigit = true) : c ≠ '-' := by
  intro he
  subst he
  exact absurd h (by decide)

theorem not_plus_of_isDigit {c : Char} (h : c.isDigit = true) : c ≠ '+' := by
  intro he
  subst he
  exact absurd h (by decide)

/-- int() inverts str() on integers. -/
theorem pyInt_pyStrInt (i : Int) : pyInt (pyStrInt i) = some i := by
  cases i with
  | ofNat n =>
    show pyInt (String.mk (natDigits n)) = some (Int.ofNat n)
    unfold pyInt
    cases hnd : natDigits n with
    | nil => exact absurd hnd (natDigits_ne_nil n)
    | cons c cs =>
      have hall := natDigits_all_digits n
      rw [hnd] at hall
      simp only [List.all_cons, Bool.and_eq_true] at hall
      have hc : c.isDigit = true := hall.1
      simp only [not_dash_of_isDigit hc, if_false, not_plus_of_isDigit hc, if_false]
      rw [← hnd, parseDigits_natDigits]
      rfl
  | negSucc m =>
    show pyInt (String.mk ('-' :: natDigits (m + 1))) = some (Int.negSucc m)
    unfold pyInt
    simp [parseDigits_natDigits, Int.negSucc_eq]

/-! ### Shared helper lemmas -/

/-- find? returns the unique element matching a predicate that pins down
a Nodup key. -/
theorem find?_key_unique {α β : Type} [DecidableEq β] (key : α → β) (p : α → Bool)
    (l : List α) (a : α) (ha : a ∈ l) (hpa : p a = true)
    (hkey : ∀ x ∈ l, p x = true → key x = key a)
    (hnd : (l.map key).Nodup) : l.find? p = some a := by
  induction l with
  | nil => exact absurd ha (List.not_mem_nil a)
  | cons b t ih =>
    simp only [List.map_cons, List.nodup_cons] at hnd
    by_cases hb : p b = true
    · rw [List.find?_cons_of_pos _ hb]
      rcases List.mem_cons.mp ha with h | hat
      · rw [h]
      · exfalso
        have h1 : key b = key a := hkey b (List.mem_cons_self b t) hb
        have h2 : key a ∈ t.map key := List.mem_map_of_mem key hat
        exact hnd.1 (by rw [h1]; exact h2)
    · rw [List.find?_cons_of_neg _ hb]
      rcases List.mem_cons.mp ha with h | hat
      · exact absurd (h ▸ hpa) hb
      · exact ih hat (fun x hx hpx => hkey x (List.mem_cons_of_mem b hx) hpx) hnd.2

theorem foldl_max_init_le (l : List UserRow) (n : Nat) :
    n ≤ l.foldl (fun a u => max a u.id) n := by
  induction l generalizing n with
  | nil => exact Nat.le_refl n
  | cons b t ih => exact Nat.le_trans (Nat.le_max_left n b.id) (ih (max n b.id))

theorem mem_le_foldl_max (l : List UserRow) (u : UserRow) (hu : u ∈ l) (n : Nat) :
    u.id ≤ l.foldl (fun a x => max a x.id) n := by
  induction l generalizing n with
  | nil => exact absurd hu (List.not_mem_nil u)
  | cons b t ih =>
    rcases List.mem_cons.mp hu with h | hut
    · exact Nat.le_trans (h ▸ Nat.le_max_right n b.id) (foldl_max_init_le t _)
    · exact ih hut (max n b.id)

theorem mem_le_maxUserId (db : DB) (u : UserRow) (hu : u ∈ db.users) :
    u.id ≤ maxUserId db :=
  mem_le_foldl_max db.users u hu 0

/-! ### Claim theorems -/

/-- C5: for every request to a route guarded by login_required made by a
session whose logged_in flag is not set, the handler body is not executed
(the result is identical for every handler) and the response is the
redirect to the login page. -/
theorem login_required_redirects {α : Type} (s : Session) (f g : Session → α)
    (h : s.logged_in = false) :
    login_required f s = Guarded.redirectLogin ∧
    login_required f s = login_required g s := by
  unfold login_required
  rw [h]
  exact ⟨rfl, rfl⟩

theorem login_required_redirects_witness :
    login_required (fun _ => (0 : Nat)) sessionOut = Guarded.redirectLogin ∧
    login_required (fun _ => (0 : Nat)) sessionOut =
      login_required (fun _ => (1 : Nat)) sessionOut :=
  login_required_redirects sessionOut (fun _ => 0) (fun _ => 1) rfl

/-- C7: for a fixed current date, build_portfolio_text is deterministic in
its input list; the empty list yields "활동 없음"; a non-empty list yields
the newline-join of one formatted line per row; and a row's status label
is 완료 exactly when its end_date is non-empty and lexicographically below
the current date, 진행 중 otherwise. -/
theorem build_portfolio_text_spec (today : String) (exps : List ExperienceRow) :
    build_portfolio_text today exps = build_portfolio_text today exps ∧
    (exps = [] → build_portfolio_text today exps = "활동 없음") ∧
    (exps ≠ [] → build_portfolio_text today exps =
       String.intercalate "\n" (exps.map (expLine today))) ∧
    ∀ e ∈ exps,
      (endDateDone today e = true ↔ ∃ d, e.end_date = some d ∧ d ≠ "" ∧ d < today) ∧
      expLine today e =
        "- [" ++ (if endDateDone today e then "완료" else "진행 중") ++ "] " ++
        optStr e.title ++ " (" ++ optStr e.category ++ ") | 기술: " ++
        optStr e.skills ++ " | 중요도: " ++ ratingText e ++ " | 내용: " ++
        optStr e.description := by
  refine ⟨rfl, ?_, ?_, ?_⟩
  · intro h
    rw [h]
    rfl
  · intro h
    cases exps with
    | nil => exact absurd rfl h
    | cons a t => rfl
  · intro e _
    refine ⟨?_, rfl⟩
    unfold endDateDone
    cases e.end_date with
    | none => simp
    | some d => simp

theorem build_portfolio_text_spec_witness :
    build_portfolio_text "2026-10-12" [] = "활동 없음" ∧
    build_portfolio_text "2026-10-12" [exp1] =
      String.intercalate "\n" ([exp1].map (expLine "2026-10-12")) :=
  ⟨(build_portfolio_text_spec "2026-10-12" []).2.1 rfl,
   (build_portfolio_text_spec "2026-10-12" [exp1]).2.2.1 (List.cons_ne_nil exp1 [])⟩

/-- C8: when get_db_connection yields no connection, fetch_all_experiences
returns the empty list and get_profile the empty record, for every
combination of their arguments. -/
theorem no_connection_degrades (ob : Bool) (uid1 uid2 : Option Nat) :
    fetch_all_experiences none ob uid1 = [] ∧ get_profile none uid2 = none := by
  refine ⟨rfl, ?_⟩
  match uid2 with
  | none => rfl
  | some 0 => rfl
  | some (n + 1) => rfl

/-- C1: for a logged-in non-admin session, experience_detail answers 404
(a constructor carrying no row data) for every experience id whose row is
not owned by the session user or matches no row, and renders the row for
an id owned by the session user. -/
theorem experience_detail_owner_scope (db : DB) (s : Session) (uid exp_id : Nat)
    (hlog : s.logged_in = true) (hadm : s.is_admin = false) (hsid : s.user_id = some uid)
    (hnd : (db.experience.map (fun e => e.id)).Nodup) :
    ((∀ e ∈ db.experience, e.id = exp_id → e.user_id ≠ uid) →
       experience_detail (some db) s exp_id = DetailResponse.notFound) ∧
    (∀ e ∈ db.experience, e.id = exp_id → e.user_id = uid →
       experience_detail (some db) s exp_id = DetailResponse.page e) := by
  constructor
  · intro hno
    have hfn : db.experience.find?
        (fun e => e.id == exp_id && s.user_id == some e.user_id) = none := by
      rw [List.find?_eq_none]
      intro e he hcontra
      simp only [hsid, Bool.and_eq_true, beq_iff_eq, Option.some.injEq] at hcontra
      exact hno e he hcontra.1 hcontra.2.symm
    simp [experience_detail, hadm, hfn]
  · intro e he hid huid
    have hfs : db.experience.find?
        (fun x => x.id == exp_id && s.user_id == some x.user_id) = some e := by
      apply find?_key_unique (fun x => x.id) _ _ e he
      · simp [hid, hsid, huid]
      · intro x hx hpx
        simp only [Bool.and_eq_true, beq_iff_eq] at hpx
        simp [hpx.1, hid]
      · exact hnd
    simp [experience_detail, hadm, hfs]

theorem experience_detail_owner_scope_witness :
    experience_detail (some dbTwoUsers) sessionU1 2 = DetailResponse.notFound ∧
    experience_detail (some dbTwoUsers) sessionU1 1 = DetailResponse.page exp1 :=
  ⟨(experience_detail_owner_scope dbTwoUsers sessionU1 1 2 rfl rfl rfl
      (by decide)).1 (by decide),
   (experience_detail_owner_scope dbTwoUsers sessionU1 1 1 rfl rfl rfl
      (by decide)).2 exp1 (by decide) rfl rfl⟩

/-- The modelled werkzeug hash is injective, so a hash verifies exactly
its own password. -/
theorem gph_injective {p q : String}
    (h : generate_password_hash p = generate_password_hash q) : p = q := by
  unfold generate_password_hash at h
  have hd : ("pbkdf2:" ++ p).data = ("pbkdf2:" ++ q).data := congrArg String.data h
  rw [String.data_append, String.data_append] at hd
  have hpq : p.data = q.data := List.append_cancel_left hd
  cases p
  cases q
  exact congrArg String.mk hpq

/-- C3: for a stored user whose password hash is the hash of P, a login
POST with that user's email succeeds — setting logged_in, is_admin=False
and user_id and redirecting to index — exactly when the submitted password
is P, and otherwise (or for an email matching no user) re-renders the
login page with an error and leaves the session's login state unset. -/
theorem login_correct (db : DB) (s : Session) (u : UserRow) (P q : String)
    (hu : u ∈ db.users) (hh : u.password_hash = some (generate_password_hash P))
    (hnd : (db.users.map (fun v => v.email)).Nodup) :
    (login (some db) s u.email q =
       if q = P then
         (LoginResponse.redirectIndex,
          { logged_in := true, is_admin := false, user_id := some u.id })
       else (LoginResponse.errorPage, s)) ∧
    ∀ email2, (∀ v ∈ db.users, v.email ≠ email2) →
      login (some db) s email2 q = (LoginResponse.errorPage, s) := by
  constructor
  · have hf : db.users.find? (fun v => v.email == u.email) = some u := by
      apply find?_key_unique (fun v => v.email) _ _ u hu
      · simp
      · intro x hx hpx
        simpa using hpx
      · exact hnd
    by_cases hq : q = P
    · have hc : check_password_hash (generate_password_hash P) q = true := by
        simp [check_password_hash, hq]
      rw [if_pos hq]
      simp [login, hf, hh, hc]
    · have hc : check_password_hash (generate_password_hash P) q = false := by
        unfold check_password_hash
        rw [beq_eq_false_iff_ne]
        exact fun hcon => hq (gph_injective hcon).symm
      rw [if_neg hq]
      simp [login, hf, hh, hc]
  · intro email2 hno
    have hf : db.users.find? (fun v => v.email == email2) = none := by
      rw [List.find?_eq_none]
      intro v hv
      simpa using hno v hv
    simp [login, hf]

theorem login_correct_witness :
    login (some dbTwoUsers) sessionOut "alice@example.com" "pw1" =
      (LoginResponse.redirectIndex,
       { logged_in := true, is_admin := false, user_id := some 1 }) ∧
    login (some dbTwoUsers) sessionOut "alice@example.com" "wrong" =
      (LoginResponse.errorPage, sessionOut) ∧
    login (some dbTwoUsers) sessionOut "nobody@example.com" "pw1" =
      (LoginResponse.errorPage, sessionOut) := by
  refine ⟨?_, ?_, ?_⟩
  · have h := (login_correct dbTwoUsers sessionOut user1 "pw1" "pw1"
      (by decide) rfl (by decide)).1
    rw [if_pos rfl] at h
    exact h
  · have h := (login_correct dbTwoUsers sessionOut user1 "pw1" "wrong"
      (by decide) rfl (by decide)).1
    rw [if_neg (by decide)] at h
    exact h
  · exact (login_correct dbTwoUsers sessionOut user1 "pw1" "pw1"
      (by decide) rfl (by decide)).2 "nobody@example.com" (by decide)

/-- C9: a non-admin logged-in session invoking delete on an experience id
owned by a different user leaves the experience table (and the whole
database) unchanged and gets the redirect to index. -/
theorem delete_nonowner_noop (db : DB) (s : Session) (uid exp_id : Nat)
    (t : ExperienceRow)
    (hlog : s.logged_in = true) (hadm : s.is_admin = false) (hsid : s.user_id = some uid)
    (ht : t ∈ db.experience) (htid : t.id = exp_id) (hown : t.user_id ≠ uid)
    (hnd : (db.experience.map (fun e => e.id)).Nodup) :
    delete (some db) s exp_id = (DeleteResponse.redirectIndex, some db) := by
  have hfe : db.experience.filter
      (fun e => !(e.id == exp_id && s.user_id == some e.user_id)) = db.experience := by
    rw [List.filter_eq_self]
    intro e he
    by_cases hid : e.id = exp_id
    · have het : e = t :=
        List.inj_on_of_nodup_map hnd he ht (by rw [hid, htid])
      rw [het, hsid]
      simp [htid]
      exact fun hcon => hown hcon.symm
    · simp [hid]
  have hstep : delete (some db) s exp_id =
      (DeleteResponse.redirectIndex,
       some { db with experience := db.experience.filter (fun e => !(e.id == exp_id && s.user_id == some e.user_id)) }) := by
    simp [delete, hadm]
  rw [hstep, hfe]

theorem delete_nonowner_noop_witness :
    delete (some dbTwoUsers) sessionU1 2 = (DeleteResponse.redirectIndex, some dbTwoUsers) :=
  delete_nonowner_noop dbTwoUsers sessionU1 1 2 exp2 rfl rfl rfl
    (by decide) rfl (by decide) (by decide)

/-- C6 (code-bug evidence): the naver callback's statements, run for a
provider_id with no existing users row, insert a users row — with a NULL
password_hash despite the NOT NULL of the DDL — and insert no profile row,
so the new user has no one-to-one profile, contrary to the claim (register,
social_login_process and the google/kakao callbacks do create one). -/
theorem naver_callback_user_without_profile (db : DB) (pid email name : String)
    (hfind : db.users.find? (fun u =>
        u.provider == some "naver" && u.provider_id == some pid) = none)
    (hprof : ∀ p ∈ db.profile, p.user_id ≠ maxUserId db + 1) :
    ∃ u, u ∈ (naver_callback_db db pid email name).users ∧ u ∉ db.users ∧
      u.password_hash = none ∧
      ∀ p ∈ (naver_callback_db db pid email name).profile, p.user_id ≠ u.id := by
  refine ⟨{ id := maxUserId db + 1, email := email, password_hash := none,
            created_at := none, name := some name, provider := some "naver",
            provider_id := some pid }, ?_, ?_, rfl, ?_⟩
  · simp [naver_callback_db, hfind]
  · intro hmem
    have hle := mem_le_maxUserId db _ hmem
    simp at hle
  · intro p hp
    have hpr : (naver_callback_db db pid email name).profile = db.profile := by
      simp [naver_callback_db, hfind]
    rw [hpr] at hp
    exact hprof p hp

theorem naver_callback_user_without_profile_witness :
    ∃ u, u ∈ (naver_callback_db dbOneUser "123" "n@naver.com" "네이버사용자").users ∧
      u ∉ dbOneUser.users ∧ u.password_hash = none ∧
      ∀ p ∈ (naver_callback_db dbOneUser "123" "n@naver.com" "네이버사용자").profile,
        p.user_id ≠ u.id :=
  naver_callback_user_without_profile dbOneUser "123" "n@naver.com" "네이버사용자"
    (by decide) (by decide)

/-- C10: the CSV import is atomic: when processing any row of the body
raises (a malformed hours value, or the database rejecting the insert),
import_data answers an error and the database is exactly the one it
started from; only when every row builds is there a single commit, which
appends all the rows at once. -/
theorem import_data_atomic (db : DB) (uid : Nat) (header : List String)
    (body : List (List String)) (now : String) :
    (buildRows uid header body now (maxExpId db + 1) = none →
       import_data (some db) uid (header :: body) now =
         (ImportResponse.importError "invalid literal for int", some db)) ∧
    (∀ rows, buildRows uid header body now (maxExpId db + 1) = some rows →
       (rows.isEmpty || db.users.any (fun u => u.id == uid)) = true →
       import_data (some db) uid (header :: body) now =
         (ImportResponse.success rows.length,
          some { db with experience := db.experience ++ rows })) ∧
    (∀ rows, buildRows uid header body now (maxExpId db + 1) = some rows →
       (rows.isEmpty || db.users.any (fun u => u.id == uid)) = false →
       import_data (some db) uid (header :: body) now =
         (ImportResponse.importError "foreign key violation", some db)) := by
  refine ⟨?_, ?_, ?_⟩
  · intro hb
    simp [import_data, hb]
  · intro rows hb hc
    simp [import_data, hb, hc]
  · intro rows hb hc
    simp [import_data, hb, hc]

theorem import_data_atomic_witness :
    import_data (some dbTwoUsers) 1
      (exportHeader :: [["a", "b", "c", "d", "e", "f", "xx", "g"]]) "t" =
      (ImportResponse.importError "invalid literal for int", some dbTwoUsers) :=
  (import_data_atomic dbTwoUsers 1 exportHeader
    [["a", "b", "c", "d", "e", "f", "xx", "g"]] "t").1 (by decide)

/-! ### C2: the CSV round trip -/

theorem pyStrInt_ne_empty (i : Int) : pyStrInt i ≠ "" := by
  cases i with
  | ofNat n =>
    intro h
    have hd := congrArg String.data h
    exact natDigits_ne_nil n (by simpa [pyStrInt] using hd)
  | negSucc m =>
    intro h
    have hd := congrArg String.data h
    simp [pyStrInt] at hd

theorem orNone_of_ne (v : Option String) (hv : v ≠ some "") : orNone v = v := by
  cases v with
  | none => rfl
  | some d =>
    have hd : d ≠ "" := fun h => hv (by rw [h])
    show (if d = "" then none else some d) = some d
    rw [if_neg hd]

/-- csv.writer then `or None` sends a non-empty-string optional back to
itself (a None field would come back as None via the empty cell). -/
theorem orNone_csvCell (v : Option String) (hv : v ≠ some "") :
    orNone (some (csvCell v)) = v := by
  cases v with
  | none => rfl
  | some d =>
    have hd : d ≠ "" := fun h => hv (by rw [h])
    show (if d = "" then none else some d) = some d
    rw [if_neg hd]

theorem parseHours_export (h0 : Int) :
    parseHoursCell (some (pyStrInt h0)) = some h0 := by
  show (if pyStrInt h0 = "" then some 0 else pyInt (pyStrInt h0)) = some h0
  rw [if_neg (pyStrInt_ne_empty h0)]
  exact pyInt_pyStrInt h0

theorem export_cell_category (r : ExperienceRow) :
    dictGet exportHeader (exportRow r) "category" = some (csvCell r.category) := rfl

theorem export_cell_title (r : ExperienceRow) :
    dictGet exportHeader (exportRow r) "title" = some (csvCell r.title) := rfl

theorem export_cell_description (r : ExperienceRow) :
    dictGet exportHeader (exportRow r) "description" = some (csvCell r.description) := rfl

theorem export_cell_start_date (r : ExperienceRow) :
    dictGet exportHeader (exportRow r) "start_date" = some (csvCell r.start_date) := rfl

theorem export_cell_end_date (r : ExperienceRow) :
    dictGet exportHeader (exportRow r) "end_date" = some (csvCell r.end_date) := rfl

theorem export_cell_skills (r : ExperienceRow) :
    dictGet exportHeader (exportRow r) "skills" = some (csvCell r.skills) := rfl

theorem export_cell_hours (r : ExperienceRow) :
    dictGet exportHeader (exportRow r) "hours" = some (csvCellInt r.hours) := rfl

theorem export_cell_link (r : ExperienceRow) :
    dictGet exportHeader (exportRow r) "link" = some (csvCell r.link) := rfl

/-- One exported row re-imports with the same eight field values, for a
record whose exported fields are non-NULL and whose end_date is not the
empty string. -/
theorem buildRow_export (uid rid : Nat) (now : String) (r : ExperienceRow)
    (hg : GoodRow r = true) :
    ∃ r2, buildRow uid exportHeader (exportRow r) now rid = some r2 ∧
      exportedFields r2 = exportedFields r := by
  simp only [GoodRow, Bool.and_eq_true] at hg
  obtain ⟨⟨⟨⟨⟨⟨⟨hcat, htit⟩, hdesc⟩, hsd⟩, hsk⟩, hhr⟩, hlk⟩, hed⟩ := hg
  rw [Bool.not_eq_true', beq_eq_false_iff_ne] at hed
  obtain ⟨c, hc⟩ := Option.isSome_iff_exists.mp hcat
  obtain ⟨ti, hti⟩ := Option.isSome_iff_exists.mp htit
  obtain ⟨de, hde⟩ := Option.isSome_iff_exists.mp hdesc
  obtain ⟨sd, hsd2⟩ := Option.isSome_iff_exists.mp hsd
  obtain ⟨sk, hsk2⟩ := Option.isSome_iff_exists.mp hsk
  obtain ⟨h0, hh0⟩ := Option.isSome_iff_exists.mp hhr
  obtain ⟨lk, hlk2⟩ := Option.isSome_iff_exists.mp hlk
  have hhours : parseHoursCell (dictGet exportHeader (exportRow r) "hours") = some h0 := by
    rw [export_cell_hours, hh0]
    exact parseHours_export h0
  refine ⟨{ id := rid, user_id := uid,
            category := dictGet exportHeader (exportRow r) "category",
            title := dictGet exportHeader (exportRow r) "title",
            description := dictGet exportHeader (exportRow r) "description",
            start_date := dictGet exportHeader (exportRow r) "start_date",
            end_date := orNone (dictGet exportHeader (exportRow r) "end_date"),
            skills := dictGet exportHeader (exportRow r) "skills",
            hours := some h0,
            link := some ((dictGet exportHeader (exportRow r) "link").getD ""),
            created_at := some now }, ?_, ?_⟩
  · unfold buildRow
    rw [hhours]
  · simp only [exportedFields, export_cell_category, export_cell_title,
      export_cell_description, export_cell_start_date, export_cell_end_date,
      export_cell_skills, export_cell_link, Prod.mk.injEq, List.cons.injEq]
    refine ⟨⟨?_, ?_, ?_, ?_, ?_, ?_, ?_, trivial⟩, hh0.symm⟩
    · rw [hc]; rfl
    · rw [hti]; rfl
    · rw [hde]; rfl
    · rw [hsd2]; rfl
    · exact orNone_csvCell r.end_date hed
    · rw [hsk2]; rfl
    · rw [hlk2]; rfl

/-- Every exported body re-imports row for row with the same eight field
values. -/
theorem buildRows_export (uid : Nat) (now : String) (rows : List ExperienceRow)
    (hg : ∀ r ∈ rows, GoodRow r = true) (rid : Nat) :
    ∃ rows2, buildRows uid exportHeader (rows.map exportRow) now rid = some rows2 ∧
      rows2.map exportedFields = rows.map exportedFields ∧
      rows2.length = rows.length := by
  induction rows generalizing rid with
  | nil => exact ⟨[], rfl, rfl, rfl⟩
  | cons r rest ih =>
    obtain ⟨r2, hr2, hf2⟩ := buildRow_export uid rid now r (hg r (List.mem_cons_self r rest))
    obtain ⟨rest2, hb2, hfs, hlen⟩ :=
      ih (fun x hx => hg x (List.mem_cons_of_mem r hx)) (rid + 1)
    refine ⟨r2 :: rest2, ?_, ?_, ?_⟩
    · simp only [List.map_cons, buildRows, hr2, hb2]
      rfl
    · simp [hf2, hfs]
    · simp [hlen]

/-- C2 (amended): exporting a user's experience records with export_data
and re-importing the file with import_data reproduces the eight exported
field values of every record, provided every record's exported text
fields and hours are non-NULL and its end_date is not the empty string.
(The unamended claim fails on NULL fields: see the counterexample, where
a NULL start_date comes back as the empty string.) -/
theorem export_import_roundtrip (db : DB) (uid : Nat) (rows : List ExperienceRow)
    (now : String) (hg : ∀ r ∈ rows, GoodRow r = true)
    (hu : db.users.any (fun u => u.id == uid) = true) :
    ∃ rows2,
      import_data (some db) uid (export_data rows) now =
        (ImportResponse.success rows.length,
         some { db with experience := db.experience ++ rows2 }) ∧
      rows2.map exportedFields = rows.map exportedFields := by
  obtain ⟨rows2, hb, hf, hlen⟩ := buildRows_export uid now rows hg (maxExpId db + 1)
  refine ⟨rows2, ?_, hf⟩
  simp [import_data, export_data, hb, hu, hlen]

theorem export_import_roundtrip_witness :
    ∃ rows2,
      import_data (some dbTwoUsers) 1 (export_data [exp1]) "t" =
        (ImportResponse.success 1,
         some { dbTwoUsers with experience := dbTwoUsers.experience ++ rows2 }) ∧
      rows2.map exportedFields = [exp1].map exportedFields :=
  export_import_roundtrip dbTwoUsers 1 [exp1] "t" (by decide) (by decide)

/-- C2 counterexample to the unamended claim: a record with a NULL
start_date is exported and re-imported with start_date equal to the empty
string, not NULL, so the eight field values are not reproduced. -/
theorem export_import_null_not_reproduced :
    (import_data (some dbTwoUsers) 1 (export_data [rowNullStart]) "t").2 =
      some { dbTwoUsers with experience := dbTwoUsers.experience ++ [reimportedNullStart] } ∧
    reimportedNullStart.start_date = some "" ∧
    rowNullStart.start_date = none := by
  decide

/-! ### C4: referential integrity -/

theorem buildRow_user_id (uid : Nat) (header cells : List String) (now : String)
    (rid : Nat) (r : ExperienceRow)
    (h : buildRow uid header cells now rid = some r) : r.user_id = uid := by
  unfold buildRow at h
  cases hp : parseHoursCell (dictGet header cells "hours") with
  | none =>
    rw [hp] at h
    exact absurd h (by simp)
  | some h0 =>
    rw [hp] at h
    injection h with h3
    rw [← h3]

theorem buildRows_user_id (uid : Nat) (header : List String) : ∀ (body : List (List String))
    (now : String) (rid : Nat) (rows : List ExperienceRow),
    buildRows uid header body now rid = some rows → ∀ r ∈ rows, r.user_id = uid := by
  intro body
  induction body with
  | nil =>
    intro now rid rows h r hr
    unfold buildRows at h
    injection h with h2
    rw [← h2] at hr
    exact absurd hr (List.not_mem_nil r)
  | cons cells rest ih =>
    intro now rid rows h r hr
    unfold buildRows at h
    cases hb : buildRow uid header cells now rid with
    | none =>
      rw [hb] at h
      exact absurd h (by simp)
    | some r0 =>
      rw [hb] at h
      rw [Option.map_eq_some'] at h
      obtain ⟨l, hl, hcons⟩ := h
      rw [← hcons] at hr
      rcases List.mem_cons.mp hr with h1 | h1
      · exact h1 ▸ buildRow_user_id uid header cells now rid r0 hb
      · exact ih now (rid + 1) l hl r h1

theorem inv_mono (db db2 : DB)
    (hu : ∀ u ∈ db.users, u ∈ db2.users)
    (he : ∀ e ∈ db2.experience, e ∈ db.experience)
    (hi : Inv db) : Inv db2 := by
  intro e he2
  obtain ⟨u, hu1, hu2⟩ := hi e (he e he2)
  exact ⟨u, hu u hu1, hu2⟩

/-- Every operation of the step relation preserves referential integrity:
user-creating operations only grow the users table, the experience
mutations are owner-stamped inserts guarded by the foreign key, updates
that never touch user_id, or deletions. -/
theorem step_inv {db db2 : DB} (h : Step db db2) (hi : Inv db) : Inv db2 := by
  cases h with
  | register_step s email pw now =>
    by_cases hdup : db.users.any (fun u => u.email == email) = true
    · simpa [register, hdup] using hi
    · simp [register, hdup]
      exact inv_mono db _ (fun u hu => List.mem_append_left _ hu) (fun e he => he) hi
  | social_step s email now =>
    cases hf : db.users.find? (fun u => u.email == email) with
    | some u => simpa [social_login_process, hf] using hi
    | none =>
      simp [social_login_process, hf]
      exact inv_mono db _ (fun u hu => List.mem_append_left _ hu) (fun e he => he) hi
  | google_step s gid email now =>
    cases hf : db.users.find? (fun u =>
        u.provider == some "google" && u.provider_id == some gid) with
    | some u => simpa [google_callback_db, hf] using hi
    | none =>
      simp [google_callback_db, hf]
      exact inv_mono db _ (fun u hu => List.mem_append_left _ hu) (fun e he => he) hi
  | kakao_step s kid email now =>
    cases hf : db.users.find? (fun u =>
        u.provider == some "kakao" && u.provider_id == some kid) with
    | some u => simpa [kakao_callback_db, hf] using hi
    | none =>
      simp [kakao_callback_db, hf]
      exact inv_mono db _ (fun u hu => List.mem_append_left _ hu) (fun e he => he) hi
  | naver_step pid email name =>
    cases hf : db.users.find? (fun u =>
        u.provider == some "naver" && u.provider_id == some pid) with
    | some u => simpa [naver_callback_db, hf] using hi
    | none =>
      simp [naver_callback_db, hf]
      exact inv_mono db _ (fun u hu => List.mem_append_left _ hu) (fun e he => he) hi
  | add_step uid f now =>
    cases hh : addHours f.hours with
    | none => simpa [add_post, hh] using hi
    | some h0 =>
      by_cases hex : db.users.any (fun u => u.id == uid) = true
      · simp only [add_post, hh, hex, if_true, Option.getD_some]
        intro e he
        rcases List.mem_append.mp he with h1 | h1
        · exact hi e h1
        · obtain ⟨u, hu1, hbe⟩ := List.any_eq_true.mp hex
          refine ⟨u, hu1, ?_⟩
          rw [List.mem_singleton.mp h1]
          simpa using hbe
      · simpa [add_post, hh, hex] using hi
  | edit_step s exp_id f =>
    by_cases hadm : s.is_admin = true
    · cases hq : db.experience.find? (fun e => e.id == exp_id) with
      | none => simpa [edit_post, hadm, hq] using hi
      | some e0 =>
        cases hh : editHours f.hours with
        | none => simpa [edit_post, hadm, hq, hh] using hi
        | some hv =>
          simp only [edit_post, hadm, if_true, hq, hh, Option.getD_some]
          intro e he
          obtain ⟨e1, he1, hupd⟩ := List.mem_map.mp he
          obtain ⟨u, hu1, hu2⟩ := hi e1 he1
          refine ⟨u, hu1, ?_⟩
          rw [← hupd]
          by_cases hid : (e1.id == exp_id) = true
          · simpa [hid] using hu2
          · simpa [hid] using hu2
    · cases hq : db.experience.find?
          (fun e => e.id == exp_id && s.user_id == some e.user_id) with
      | none => simpa [edit_post, hadm, hq] using hi
      | some e0 =>
        cases hh : editHours f.hours with
        | none => simpa [edit_post, hadm, hq, hh] using hi
        | some hv =>
          simp only [edit_post, hadm, Bool.false_eq_true, if_false, hq, hh,
            Option.getD_some]
          intro e he
          obtain ⟨e1, he1, hupd⟩ := List.mem_map.mp he
          obtain ⟨u, hu1, hu2⟩ := hi e1 he1
          refine ⟨u, hu1, ?_⟩
          rw [← hupd]
          by_cases hid : (e1.id == exp_id) = true
          · simpa [hid] using hu2
          · simpa [hid] using hu2
  | delete_step s exp_id =>
    by_cases hadm : s.is_admin = true
    · simp [delete, hadm]
      exact inv_mono db _ (fun u hu => hu) (fun e he => List.mem_of_mem_filter he) hi
    · simp [delete, hadm]
      exact inv_mono db _ (fun u hu => hu) (fun e he => List.mem_of_mem_filter he) hi
  | import_step uid file now =>
    cases file with
    | nil => simpa [import_data] using hi
    | cons header body =>
      cases hb : buildRows uid header body now (maxExpId db + 1) with
      | none => simpa [import_data, hb] using hi
      | some rows =>
        by_cases hc : (rows.isEmpty || db.users.any (fun u => u.id == uid)) = true
        · simp only [import_data, hb, hc, if_true, Option.getD_some]
          intro e he
          rcases List.mem_append.mp he with h1 | h1
          · exact hi e h1
          · have heu : e.user_id = uid :=
              buildRows_user_id uid header body now _ rows hb e h1
            have hne : rows.isEmpty = false :=
              List.isEmpty_eq_false_iff_exists_mem.mpr ⟨e, h1⟩
            rw [hne, Bool.false_or] at hc
            obtain ⟨u, hu1, hbe⟩ := List.any_eq_true.mp hc
            refine ⟨u, hu1, ?_⟩
            rw [heu]
            simpa using hbe
        · simpa [import_data, hb, hc] using hi
  | cascade_step uid =>
    intro e he
    obtain ⟨he1, he2⟩ := List.mem_filter.mp he
    obtain ⟨u, hu1, hu2⟩ := hi e he1
    refine ⟨u, ?_, hu2⟩
    apply List.mem_filter.mpr
    refine ⟨hu1, ?_⟩
    rw [hu2]
    exact he2

/-- C4: in every database state reachable through the program's operations
from a state satisfying referential integrity, every experience row's
user_id is the id of an existing users row, and deleting a users row
removes every experience row referencing it (the ON DELETE CASCADE of the
DDL). -/
theorem experience_fk_invariant (db0 db : DB) (h0 : Inv db0) (h : Reach db0 db) :
    Inv db ∧ ∀ uid : Nat, ∀ e ∈ (delete_user_cascade db uid).experience,
      e.user_id ≠ uid := by
  constructor
  · have h2 : Relation.ReflTransGen Step db0 db := h
    clear h
    induction h2 with
    | refl => exact h0
    | tail h1 hstep ih => exact step_inv hstep ih
  · intro uid e he
    obtain ⟨he1, he2⟩ := List.mem_filter.mp he
    simpa using he2

theorem experience_fk_invariant_witness :
    Inv ((register (some (DB.mk [] [] [])) sessionOut "a@b.c" "pw" "t").2.1.getD
      (DB.mk [] [] [])) :=
  (experience_fk_invariant (DB.mk [] [] [])
    ((register (some (DB.mk [] [] [])) sessionOut "a@b.c" "pw" "t").2.1.getD
      (DB.mk [] [] []))
    (by decide)
    (Relation.ReflTransGen.single
      (Step.register_step (DB.mk [] [] []) sessionOut "a@b.c" "pw" "t"))).1

end PortfolioApp
